import Mathlib

set_option maxRecDepth 8000

/-!
Shallow embedding of the `easy-analysis` repository (package `easy_analysis`)
and proofs about the spec's claims.

Modelling conventions, used throughout:
* pandas / numpy floating-point values are modelled as exact rationals (`ℚ`).
  Float `NaN`/`inf` produced by division by zero are modelled by Lean's
  `x / 0 = 0` convention on `ℚ`; no settled claim depends on such an entry.
* A pandas cell is `Option ℚ`; `none` models a null (`NaN`) entry.
* `DataFrame.round(3)` is modelled by exact rounding of the rational value to
  three decimal digits (ties rounded half-up; the claims never hit a tie).
* Where a statistic's float value is irrational (standard deviation, skew),
  its rounded-to-3-digits value is computed exactly through integer square
  roots (`sqrtRound3`), so every definition stays executable.
-/

namespace EasyAnalysis

/-- A pandas cell: `none` models a null / `NaN` entry. -/
abbrev Cell := Option ℚ

/-- The non-null values of a column, in order (pandas `dropna`). -/
def dropNulls (cells : List Cell) : List ℚ := cells.filterMap id

/-- Mean of a list of rationals (`Series.mean`); `0` on the empty list
(pandas would give `NaN`; no settled claim touches that case). -/
def meanL (l : List ℚ) : ℚ := l.sum / (l.length : ℚ)

/-- Sample variance with `ddof = 1` (pandas `Series.var`); the `n ≤ 1` case
degenerates to `0` by the `x / 0 = 0` convention. -/
def sampleVar (l : List ℚ) : ℚ :=
  ((l.map fun x => (x - meanL l) ^ 2).sum) / ((l.length : ℚ) - 1)

/-- Minimum of a list (`Series.min`); `0` on the empty list. -/
def minL (l : List ℚ) : ℚ :=
  match l with
  | [] => 0
  | x :: xs => xs.foldl min x

/-- Maximum of a list (`Series.max`); `0` on the empty list. -/
def maxL (l : List ℚ) : ℚ :=
  match l with
  | [] => 0
  | x :: xs => xs.foldl max x

/-- pandas `Series.quantile(p)` with the default linear interpolation:
on the ascending sort `s` of the data, the value at fractional position
`h = p * (n - 1)`. -/
def quantile (l : List ℚ) (p : ℚ) : ℚ :=
  let s := List.insertionSort (· ≤ ·) l
  let n := s.length
  if n = 0 then 0
  else
    let h : ℚ := p * ((n : ℚ) - 1)
    let i : ℕ := h.floor.toNat
    let lo := s.getD i 0
    let hi := s.getD (i + 1) lo
    lo + (h - (i : ℚ)) * (hi - lo)

/-- Rounding a rational to three decimal digits, modelling float `.round(3)`
(ties go half-up, computed as `⌊1000 q + 1/2⌋ / 1000`; the values in the
claims are never ties). -/
def round3 (q : ℚ) : ℚ := (((1000 * q + 1/2).floor : ℤ) : ℚ) / 1000

/-- The exact value of `round3 (Real.sqrt q)` for `q ≥ 0`, computed with
integer square roots: the nearest integer to `√(10^6 q)` is `s = ⌊√(10^6 q)⌋`
unless `(2 s + 1)^2 ≤ 4 · 10^6 q`, in which case it is `s + 1`. -/
def sqrtRound3 (q : ℚ) : ℚ :=
  let a : ℚ := 1000000 * q
  let s : ℕ := Nat.sqrt a.floor.toNat
  if ((2 * s + 1 : ℕ) : ℚ) ^ 2 ≤ 4 * a then ((s : ℚ) + 1) / 1000 else (s : ℚ) / 1000

/-- `Series.skew()` (adjusted Fisher-Pearson `G1`), already rounded to three
digits: `G1 = n Σd³ / ((n-1)(n-2) s³)` with `s` the sample std, so
`G1² = n² (Σd³)² / ((n-1)² (n-2)² v³)` is rational and the sign is the sign
of `Σd³`; the rounded magnitude is computed by `sqrtRound3`. Degenerate for
`n < 3` (pandas gives `NaN`, modelled as `0`). -/
def skewRound3 (l : List ℚ) : ℚ :=
  let n : ℚ := (l.length : ℚ)
  let μ := meanL l
  let d3 := (l.map fun x => (x - μ) ^ 3).sum
  let v := sampleVar l
  let sq := n ^ 2 * d3 ^ 2 / ((n - 1) ^ 2 * (n - 2) ^ 2 * v ^ 3)
  if d3 < 0 then -sqrtRound3 sq else sqrtRound3 sq

/-- `Series.kurt()` (bias-corrected excess kurtosis `G2`), a rational value,
rounded to three digits. Degenerate for `n < 4` (pandas gives `NaN`). -/
def kurtRound3 (l : List ℚ) : ℚ :=
  let n : ℚ := (l.length : ℚ)
  let μ := meanL l
  let d4 := (l.map fun x => (x - μ) ^ 4).sum
  let v := sampleVar l
  round3 (n * (n + 1) * d4 / ((n - 1) * (n - 2) * (n - 3) * v ^ 2)
    - 3 * (n - 1) ^ 2 / ((n - 2) * (n - 3)))

/-- The row labels of `custom_describe`'s output, in order: the rows of
`DataFrame.describe(percentiles=[.01,.05,.25,.50,.75,.95,.99])` followed by
the four extra rows the source concatenates. -/
def describeLabels : List String :=
  ["count", "mean", "std", "min", "1%", "5%", "25%", "50%", "75%", "95%", "99%",
   "max", "skew", "kurtosis", "notnull", "isnull"]

/-- The statistics of one column, in the order of `describeLabels`, each
rounded to three digits (the source's final `.round(3)`). -/
def describeColumn (cells : List Cell) : List ℚ :=
  let v := dropNulls cells
  [round3 ((v.length : ℚ)), round3 (meanL v), sqrtRound3 (sampleVar v), round3 (minL v),
   round3 (quantile v (1/100)), round3 (quantile v (5/100)), round3 (quantile v (25/100)),
   round3 (quantile v (50/100)), round3 (quantile v (75/100)), round3 (quantile v (95/100)),
   round3 (quantile v (99/100)), round3 (maxL v), skewRound3 v, kurtRound3 v,
   round3 ((v.length : ℚ)), round3 ((cells.length : ℚ) - (v.length : ℚ))]

/-- A named pandas Series (also used as one column of a DataFrame for the
statistics helpers, which never look at dtypes). -/
structure Series where
  name : String
  cells : List Cell

/-- A statistics table: each entry is one named output column, given as the
list of its (row label, value) pairs, top to bottom. -/
abbrev StatTable := List (String × List (String × ℚ))

/-- `easy_analysis.data.summary.custom_describe` on a DataFrame given as its
list of named columns: one output column per input column, rows as in
`describeLabels`. -/
def custom_describe (df : List Series) : StatTable :=
  df.map fun c => (c.name, describeLabels.zip (describeColumn c.cells))

/-- `easy_analysis.data.summary.compare_describe`: the two per-side describe
columns (`custom_describe(...).iloc[:, 0]`, i.e. the full 16-row statistics
column of each series), their elementwise difference and ratio, and, when
`reciprocal_ratio` is set, the reciprocal ratio. pandas aligns the
subtraction/division on the (identical) row labels, so they are elementwise. -/
def compare_describe (data1 data2 : Series) (reciprocal_ratio : Bool) : StatTable :=
  let stats1 := describeColumn data1.cells
  let stats2 := describeColumn data2.cells
  let base : StatTable :=
    [(data1.name ++ " as data1", describeLabels.zip stats1),
     (data2.name ++ " as data2", describeLabels.zip stats2),
     ("data1 - data2", describeLabels.zip (List.zipWith (· - ·) stats1 stats2)),
     ("data1 ÷ data2", describeLabels.zip (List.zipWith (· / ·) stats1 stats2))]
  base ++ (if reciprocal_ratio then
    [("data2 ÷ data1", describeLabels.zip (List.zipWith (· / ·) stats2 stats1))] else [])

/-- A rational that is an exact multiple of `1/1000`, i.e. already rounded to
three decimal digits. -/
def IsRounded3 (q : ℚ) : Prop := ∃ m : ℤ, q = (m : ℚ) / 1000

lemma isRounded3_round3 (q : ℚ) : IsRounded3 (round3 q) :=
  ⟨(1000 * q + 1/2).floor, rfl⟩

lemma isRounded3_sqrtRound3 (q : ℚ) : IsRounded3 (sqrtRound3 q) := by
  dsimp only [sqrtRound3]
  split
  · exact ⟨(Nat.sqrt (1000000 * q).floor.toNat : ℤ) + 1, by push_cast; ring⟩
  · exact ⟨(Nat.sqrt (1000000 * q).floor.toNat : ℤ), by push_cast; ring⟩

lemma isRounded3_neg {q : ℚ} (h : IsRounded3 q) : IsRounded3 (-q) := by
  obtain ⟨m, rfl⟩ := h
  exact ⟨-m, by push_cast; ring⟩

lemma isRounded3_skewRound3 (l : List ℚ) : IsRounded3 (skewRound3 l) := by
  dsimp only [skewRound3]
  split
  · exact isRounded3_neg (isRounded3_sqrtRound3 _)
  · exact isRounded3_sqrtRound3 _

/-- Every entry of `describeColumn` is an exact three-decimal value. -/
lemma describeColumn_rounded (cells : List Cell) :
    ∀ q ∈ describeColumn cells, IsRounded3 q := by
  intro q hq
  simp only [describeColumn, List.mem_cons, List.not_mem_nil, or_false] at hq
  rcases hq with rfl | rfl | rfl | rfl | rfl | rfl | rfl | rfl | rfl | rfl | rfl | rfl
    | rfl | rfl | rfl | rfl
  · exact isRounded3_round3 _
  · exact isRounded3_round3 _
  · exact isRounded3_sqrtRound3 _
  · exact isRounded3_round3 _
  · exact isRounded3_round3 _
  · exact isRounded3_round3 _
  · exact isRounded3_round3 _
  · exact isRounded3_round3 _
  · exact isRounded3_round3 _
  · exact isRounded3_round3 _
  · exact isRounded3_round3 _
  · exact isRounded3_round3 _
  · exact isRounded3_skewRound3 _
  · exact isRounded3_round3 _
  · exact isRounded3_round3 _
  · exact isRounded3_round3 _

/-- The statistics column always has the sixteen rows of `describeLabels`. -/
lemma describeColumn_length (cells : List Cell) : (describeColumn cells).length = 16 :=
  rfl

lemma zip_describeLabels_fst (l : List ℚ) (h : l.length = 16) :
    (describeLabels.zip l).map Prod.fst = describeLabels :=
  List.map_fst_zip _ _ (by simp [describeLabels, h])

/-- The example series `[1,2,3,4,5]` of the spec's testable properties. -/
def exA : Series := ⟨"A", [some 1, some 2, some 3, some 4, some 5]⟩

/-- The example series `[2,4,6,8,10]` of the spec's testable properties. -/
def exB : Series := ⟨"B", [some 2, some 4, some 6, some 8, some 10]⟩

lemma dropNulls_exA :
    dropNulls [some 1, some 2, some 3, some 4, some 5] = [1, 2, 3, 4, 5] := by
  simp [dropNulls]

lemma dropNulls_exB :
    dropNulls [some 2, some 4, some 6, some 8, some 10] = [2, 4, 6, 8, 10] := by
  simp [dropNulls]

lemma sampleVar_exA : sampleVar [1, 2, 3, 4, 5] = 5/2 := by
  norm_num [sampleVar, meanL]

lemma sampleVar_exB : sampleVar [2, 4, 6, 8, 10] = 10 := by
  norm_num [sampleVar, meanL]

lemma sqrtRound3_zero : sqrtRound3 0 = 0 := by
  have h2 : ((1000000 : ℚ) * 0).floor.toNat = 0 := by norm_num [Rat.floor]
  simp only [sqrtRound3, h2]
  norm_num

lemma sqrtRound3_exA : sqrtRound3 (5/2) = 1581/1000 := by
  have h1 : ((1000000 : ℚ) * (5/2)).floor = 2500000 := by norm_num [Rat.floor]
  have h2 : ((1000000 : ℚ) * (5/2)).floor.toNat = 2500000 := by rw [h1]; rfl
  simp only [sqrtRound3, h2]
  norm_num

lemma sqrtRound3_exB : sqrtRound3 10 = 1581/500 := by
  have h1 : ((1000000 : ℚ) * 10).floor = 10000000 := by norm_num [Rat.floor]
  have h2 : ((1000000 : ℚ) * 10).floor.toNat = 10000000 := by rw [h1]; rfl
  simp only [sqrtRound3, h2]
  norm_num

lemma skewRound3_exA : skewRound3 [1, 2, 3, 4, 5] = 0 := by
  have hd3 : (List.map (fun x => (x - meanL [1, 2, 3, 4, 5]) ^ 3)
      ([1, 2, 3, 4, 5] : List ℚ)).sum = 0 := by
    norm_num [meanL]
  simp only [skewRound3, hd3]
  norm_num [sqrtRound3_zero]

lemma skewRound3_exB : skewRound3 [2, 4, 6, 8, 10] = 0 := by
  have hd3 : (List.map (fun x => (x - meanL [2, 4, 6, 8, 10]) ^ 3)
      ([2, 4, 6, 8, 10] : List ℚ)).sum = 0 := by
    norm_num [meanL]
  simp only [skewRound3, hd3]
  norm_num [sqrtRound3_zero]

/-- `describeColumn` evaluated on `[1,2,3,4,5]`. -/
lemma describeColumn_exA :
    describeColumn [some 1, some 2, some 3, some 4, some 5] =
      [5, 3, 1581/1000, 1, 26/25, 6/5, 2, 3, 4, 24/5, 124/25, 5, 0, -6/5, 5, 0] := by
  have t2 : Int.toNat 2 = 2 := rfl
  have t3 : Int.toNat 3 = 3 := rfl
  simp only [describeColumn, dropNulls_exA]
  rw [sampleVar_exA, sqrtRound3_exA, skewRound3_exA]
  norm_num [round3, meanL, quantile, kurtRound3, sampleVar, minL, maxL,
    List.insertionSort, List.orderedInsert, Rat.floor, min_def, max_def, t2, t3]

/-- `describeColumn` evaluated on `[2,4,6,8,10]`. -/
lemma describeColumn_exB :
    describeColumn [some 2, some 4, some 6, some 8, some 10] =
      [5, 6, 1581/500, 2, 52/25, 12/5, 4, 6, 8, 48/5, 248/25, 10, 0, -6/5, 5, 0] := by
  have t2 : Int.toNat 2 = 2 := rfl
  have t3 : Int.toNat 3 = 3 := rfl
  simp only [describeColumn, dropNulls_exB]
  rw [sampleVar_exB, sqrtRound3_exB, skewRound3_exB]
  norm_num [round3, meanL, quantile, kurtRound3, sampleVar, minL, maxL,
    List.insertionSort, List.orderedInsert, Rat.floor, min_def, max_def, t2, t3]

/-- C9: `custom_describe` output columns mirror the input columns, its rows
appear in the fixed order count, mean, std, min, 1%, 5%, 25%, 50%, 75%, 95%,
99%, max, skew, kurtosis, notnull, isnull, every value is an exact
three-decimal number, and on the column `[1,2,3,4,5]` the mean is `3.0`,
the std rounds to `1.581`, the skew is `0.0`, notnull is `5` and isnull
is `0`. -/
theorem custom_describe_fixed_rows_and_values (df : List Series) :
    (custom_describe df).map Prod.fst = df.map Series.name ∧
    (∀ p ∈ custom_describe df, p.2.map Prod.fst = describeLabels) ∧
    (∀ p ∈ custom_describe df, ∀ r ∈ p.2, IsRounded3 r.2) ∧
    (List.lookup "mean" (custom_describe [exA]).headI.2 = some 3 ∧
     List.lookup "std" (custom_describe [exA]).headI.2 = some (1581/1000) ∧
     List.lookup "skew" (custom_describe [exA]).headI.2 = some 0 ∧
     List.lookup "notnull" (custom_describe [exA]).headI.2 = some 5 ∧
     List.lookup "isnull" (custom_describe [exA]).headI.2 = some 0) := by
  refine ⟨?_, ?_, ?_, ?_⟩
  · simp [custom_describe]
  · intro p hp
    simp only [custom_describe, List.mem_map] at hp
    obtain ⟨c, _, rfl⟩ := hp
    exact zip_describeLabels_fst _ (describeColumn_length c.cells)
  · intro p hp r hr
    simp only [custom_describe, List.mem_map] at hp
    obtain ⟨c, _, rfl⟩ := hp
    have := List.of_mem_zip hr
    exact describeColumn_rounded c.cells r.2 this.2
  · simp [custom_describe, exA, describeColumn_exA, describeLabels, List.headI,
      List.lookup, dropNulls_exA, sampleVar_exA, sqrtRound3_exA, skewRound3_exA]
    norm_num [round3, meanL, Rat.floor]

lemma zipWith_describe_length (f : ℚ → ℚ → ℚ) (c1 c2 : List Cell) :
    (List.zipWith f (describeColumn c1) (describeColumn c2)).length = 16 := by
  rw [List.length_zipWith, describeColumn_length, describeColumn_length]
  exact min_self 16

/-- C2 counterexample: already on the columns `[1]` and `[2]`, the first
per-side column of `compare_describe` has the sixteen rows of
`describeLabels`, not just the eight reduced rows
count/mean/std/min/25%/50%/75%/max the claim allows. -/
theorem compare_describe_rows_not_reduced :
    (compare_describe ⟨"A", [some 1]⟩ ⟨"B", [some 2]⟩ false).headI.2.map Prod.fst
        = describeLabels ∧
    describeLabels ≠ ["count", "mean", "std", "min", "25%", "50%", "75%", "max"] := by
  refine ⟨?_, by decide⟩
  show (describeLabels.zip (describeColumn [some 1])).map Prod.fst = describeLabels
  exact zip_describeLabels_fst _ (describeColumn_length _)

/-- C2 amended: for all inputs, `compare_describe` returns the two per-side
columns, the difference column, the ratio column and (only with the
reciprocal flag) the reciprocal column, but each per-side column carries the
full sixteen-row extended statistic set of `describeLabels` (count, mean,
std, min, 1%, 5%, 25%, 50%, 75%, 95%, 99%, max, skew, kurtosis, notnull,
isnull), not the reduced eight-row set. -/
theorem compare_describe_full_columns (d1 d2 : Series) (flag : Bool) :
    (compare_describe d1 d2 flag).map Prod.fst =
      [d1.name ++ " as data1", d2.name ++ " as data2", "data1 - data2", "data1 ÷ data2"]
        ++ (if flag then ["data2 ÷ data1"] else []) ∧
    ∀ p ∈ compare_describe d1 d2 flag, p.2.map Prod.fst = describeLabels := by
  constructor
  · cases flag <;> simp [compare_describe]
  · intro p hp
    cases flag <;>
      simp only [compare_describe, if_true, if_false, List.append_nil, List.mem_append,
        List.mem_cons, List.mem_singleton, List.not_mem_nil, or_false, Bool.false_eq_true,
        if_neg, ite_false, ite_true] at hp
    · rcases hp with rfl | rfl | rfl | rfl
      · exact zip_describeLabels_fst _ (describeColumn_length _)
      · exact zip_describeLabels_fst _ (describeColumn_length _)
      · exact zip_describeLabels_fst _ (zipWith_describe_length _ _ _)
      · exact zip_describeLabels_fst _ (zipWith_describe_length _ _ _)
    · rcases hp with (rfl | rfl | rfl | rfl) | rfl
      · exact zip_describeLabels_fst _ (describeColumn_length _)
      · exact zip_describeLabels_fst _ (describeColumn_length _)
      · exact zip_describeLabels_fst _ (zipWith_describe_length _ _ _)
      · exact zip_describeLabels_fst _ (zipWith_describe_length _ _ _)
      · exact zip_describeLabels_fst _ (zipWith_describe_length _ _ _)

/-- C3 counterexample: on `data1 = [1,2,3,4,5]`, `data2 = [2,4,6,8,10]`, the
ratio column's `count` row is `5 / 5 = 1`, not `0.5`, so the ratio column is
not constant `0.5`. -/
theorem compare_describe_ratio_count_not_half :
    (List.lookup "data1 ÷ data2" (compare_describe exA exB false)).bind
        (List.lookup "count") = some 1 ∧ (1 : ℚ) ≠ 1/2 := by
  refine ⟨?_, by norm_num⟩
  simp [compare_describe, describeColumn_exA, describeColumn_exB, describeLabels,
    List.lookup, exA, exB]

/-- C3 amended: on `data1 = [1,2,3,4,5]`, `data2 = [2,4,6,8,10]`, the
difference column's `mean` row is `-3.0` and the ratio (resp. reciprocal)
column equals `0.5` (resp. `2.0`) on the mean, std, min, all percentile and
max rows, but equals `1.0` on the count, kurtosis and notnull rows; the skew
and isnull rows are `0 / 0` (a float `NaN` in the source, the value `0`
under the rational model's division-by-zero convention). -/
theorem compare_describe_example_values :
    (List.lookup "data1 - data2" (compare_describe exA exB true)).bind
        (List.lookup "mean") = some (-3) ∧
    List.lookup "data1 ÷ data2" (compare_describe exA exB true) =
      some (describeLabels.zip
        [1, 1/2, 1/2, 1/2, 1/2, 1/2, 1/2, 1/2, 1/2, 1/2, 1/2, 1/2, 0, 1, 1, 0]) ∧
    List.lookup "data2 ÷ data1" (compare_describe exA exB true) =
      some (describeLabels.zip
        [1, 2, 2, 2, 2, 2, 2, 2, 2, 2, 2, 2, 0, 1, 1, 0]) := by
  refine ⟨?_, ?_, ?_⟩ <;>
    · simp [compare_describe, describeColumn_exA, describeColumn_exB, describeLabels,
        List.lookup, exA, exB]
      norm_num

/-- A DataFrame for `extract_outliers`: named columns over row-aligned
numeric rows; a row is the list of its cells and the row index is positional,
so the source's final `reset_index(drop=True)` is the (identity) positional
re-indexing of the output list. -/
structure Frame where
  colNames : List String
  rows : List (List ℚ)

/-- A row's value in column `col` (`df[col]` at that row), located by the
position of `col` in the column names. -/
def rowKey (df : Frame) (col : String) (r : List ℚ) : ℚ :=
  r.getD (df.colNames.indexOf col) 0

/-- The full column `df[col]`, one value per row. -/
def colValues (df : Frame) (col : String) : List ℚ :=
  df.rows.map (rowKey df col)

/-- `easy_analysis.data.outliers.extract_outliers`: quartiles and IQR of the
target column, the rows strictly outside `[Q1 - 1.5·IQR, Q3 + 1.5·IQR]`,
sorted descending by the target column's value
(`sort_values(by=col, ascending=False)`). -/
def extract_outliers (df : Frame) (col : String) : List (List ℚ) :=
  let q1 := quantile (colValues df col) (25/100)
  let q3 := quantile (colValues df col) (75/100)
  let iqr := q3 - q1
  let lower_bound := q1 - 3/2 * iqr
  let upper_bound := q3 + 3/2 * iqr
  List.insertionSort (fun a b => rowKey df col a ≥ rowKey df col b)
    (df.rows.filter fun r => rowKey df col r < lower_bound ∨ upper_bound < rowKey df col r)

/-- C8: `extract_outliers` returns exactly the rows whose target-column value
lies strictly below `Q1 - 1.5·IQR` or strictly above `Q3 + 1.5·IQR` (as a
permutation, i.e. nothing added or dropped), sorted descending by that
column; on the column `[1,2,3,4,5]` the result is empty and on
`[1,2,3,4,5,100]` it is exactly the one row containing `100`. -/
theorem extract_outliers_rows_sorted (df : Frame) (col : String) :
    (extract_outliers df col).Perm
      (df.rows.filter fun r =>
        rowKey df col r <
            quantile (colValues df col) (25/100) -
              3/2 * (quantile (colValues df col) (75/100) -
                quantile (colValues df col) (25/100)) ∨
          quantile (colValues df col) (75/100) +
              3/2 * (quantile (colValues df col) (75/100) -
                quantile (colValues df col) (25/100)) < rowKey df col r) ∧
    (extract_outliers df col).Sorted (fun a b => rowKey df col a ≥ rowKey df col b) ∧
    extract_outliers ⟨["A"], [[1], [2], [3], [4], [5]]⟩ "A" = [] ∧
    extract_outliers ⟨["A"], [[1], [2], [3], [4], [5], [100]]⟩ "A" = [[100]] := by
  refine ⟨List.perm_insertionSort _ _, ?_, ?_, ?_⟩
  · haveI : IsTotal (List ℚ) (fun a b => rowKey df col a ≥ rowKey df col b) :=
      ⟨fun a b => le_total (rowKey df col b) (rowKey df col a)⟩
    haveI : IsTrans (List ℚ) (fun a b => rowKey df col a ≥ rowKey df col b) :=
      ⟨fun a b c h1 h2 => le_trans h2 h1⟩
    exact List.sorted_insertionSort _ _
  · have hcv : colValues ⟨["A"], [[1], [2], [3], [4], [5]]⟩ "A" = [1, 2, 3, 4, 5] := by
      simp [colValues, rowKey]
    have t1 : Int.toNat 1 = 1 := rfl
    have t3 : Int.toNat 3 = 3 := rfl
    have hq1 : quantile [1, 2, 3, 4, 5] (25/100) = 2 := by
      norm_num [quantile, List.insertionSort, List.orderedInsert, Rat.floor, t1, t3]
    have hq3 : quantile [1, 2, 3, 4, 5] (75/100) = 4 := by
      norm_num [quantile, List.insertionSort, List.orderedInsert, Rat.floor, t1, t3]
    simp only [extract_outliers, hcv, hq1, hq3]
    norm_num [rowKey, List.filter_cons, decide_eq_true_eq]
  · have hcv : colValues ⟨["A"], [[1], [2], [3], [4], [5], [100]]⟩ "A"
        = [1, 2, 3, 4, 5, 100] := by
      simp [colValues, rowKey]
    have t1 : Int.toNat 1 = 1 := rfl
    have t3 : Int.toNat 3 = 3 := rfl
    have hq1 : quantile [1, 2, 3, 4, 5, 100] (25/100) = 9/4 := by
      norm_num [quantile, List.insertionSort, List.orderedInsert, Rat.floor, t1, t3]
    have hq3 : quantile [1, 2, 3, 4, 5, 100] (75/100) = 19/4 := by
      norm_num [quantile, List.insertionSort, List.orderedInsert, Rat.floor, t1, t3]
    simp only [extract_outliers, hcv, hq1, hq3]
    norm_num [rowKey, List.filter_cons, decide_eq_true_eq, List.insertionSort,
      List.orderedInsert]

/-! ### The `ClusterAnalyzer` workflow (`easy_analysis/cluster.py`) -/

/-- The pandas dtype classes relevant to the validation's
`select_dtypes(["object", "category"])`. -/
inductive Dtype
  | numeric
  | object
  | category
deriving DecidableEq

/-- One named pandas column of the input dataframe: a dtype and row-aligned
cells (`none` models a null; cells of non-numeric columns never reach any
computation, since validation rejects such frames). -/
structure PColumn where
  name : String
  dtype : Dtype
  cells : List Cell

abbrev PDataFrame := List PColumn

/-- The error taxonomy: `nullInDataFrame` and `dfNotEncoded` are the
repository's own `ClusterAnalyzerException` subclasses (`core/_errors.py`,
the latter carrying the offending column names the message interpolates);
`invalidClusterCount` is the `ValidationError("InvalidClusterCount")` the
spec describes, which no code in the repository defines or raises;
`libValueError` models the external clustering library's `ValueError` for an
invalid `n_clusters`. -/
inductive PyError
  | nullInDataFrame (msg : String)
  | dfNotEncoded (cols : List String)
  | invalidClusterCount
  | libValueError
deriving DecidableEq

/-- `data.isnull().sum().sum()`: the total count of null cells. -/
def isnullTotal (df : PDataFrame) : ℕ :=
  (df.map fun c => c.cells.countP (·.isNone)).sum

/-- `data.select_dtypes(["object", "category"]).columns.tolist()`: the names
of the non-numeric columns, in order. -/
def notEncodedCols (df : PDataFrame) : List String :=
  (df.filter fun c => c.dtype = .object ∨ c.dtype = .category).map PColumn.name

/-- `ClusterAnalyzer.__validate_df`: nulls are checked first, then
non-numeric columns; the second error carries the offending column names. -/
def validate_df (df : PDataFrame) : Except PyError Unit :=
  if 0 < isnullTotal df then
    .error (.nullInDataFrame "Passed dataframe must be imputed.")
  else if 0 < (notEncodedCols df).length then
    .error (.dfNotEncoded (notEncodedCols df))
  else .ok ()

/-- The scaler selector (`ScalerType` literal of the source). -/
inductive ScalerType
  | standardScaler
  | robustScaler
  | minMaxScaler

/-- A computable rational stand-in for the real square root (used only
inside the scaling black box, whose internal formulas the spec leaves out of
scope; no settled claim depends on the scaled values, only on shape). -/
def ratSqrt (q : ℚ) : ℚ := ((Nat.sqrt (1000000 * q).floor.toNat : ℕ) : ℚ) / 1000

/-- Population variance (`ddof = 0`), the quantity `StandardScaler`
standardises by. -/
def popVar (l : List ℚ) : ℚ := ((l.map fun x => (x - meanL l) ^ 2).sum) / (l.length : ℚ)

/-- Column-wise `StandardScaler`: `(x - mean) / std` (std via `ratSqrt`). -/
def standardScale (l : List ℚ) : List ℚ :=
  l.map fun x => (x - meanL l) / ratSqrt (popVar l)

/-- Column-wise `RobustScaler`: `(x - median) / IQR`. -/
def robustScale (l : List ℚ) : List ℚ :=
  l.map fun x => (x - quantile l (50/100)) / (quantile l (75/100) - quantile l (25/100))

/-- Column-wise `MinMaxScaler`: `(x - min) / (max - min)`. -/
def minMaxScale (l : List ℚ) : List ℚ :=
  l.map fun x => (x - minL l) / (maxL l - minL l)

/-- The dynamic scaler lookup of `__scale_df` (`getattr` on the
`sklearn.preprocessing` module by the selector's name), as a closed match. -/
def applyScaler : ScalerType → List ℚ → List ℚ
  | .standardScaler => standardScale
  | .robustScaler => robustScale
  | .minMaxScaler => minMaxScale

/-- A constructed `ClusterAnalyzer`: its only state is the scaled dataset
`self.data`, stored column-wise. -/
structure ClusterAnalyzer where
  cols : List (List ℚ)

/-- `__scale_df`: apply the selected scaler to every column. -/
def scale_df (st : ScalerType) (df : PDataFrame) : List (List ℚ) :=
  df.map fun c => applyScaler st (c.cells.map fun x => x.getD 0)

/-- `ClusterAnalyzer.__init__`: validate, then scale and store. -/
def mkClusterAnalyzer (df : PDataFrame) (st : ScalerType) :
    Except PyError ClusterAnalyzer :=
  match validate_df df with
  | .error e => .error e
  | .ok _ => .ok ⟨scale_df st df⟩

/-- Row count of the input dataframe (`data.shape[0]`). -/
def dfRows : PDataFrame → ℕ
  | [] => 0
  | c :: _ => c.cells.length

/-- `self.data.shape[0]`. -/
def nRowsCA (ca : ClusterAnalyzer) : ℕ :=
  match ca.cols with
  | [] => 0
  | c :: _ => c.length

/-- `self.data.shape[1]`. -/
def nColsCA (ca : ClusterAnalyzer) : ℕ := ca.cols.length

/-- The scaled dataset as its list of rows (the samples fed to the
clustering library). -/
def rowsOf (ca : ClusterAnalyzer) : List (List ℚ) :=
  (List.range (nRowsCA ca)).map fun i => ca.cols.map fun c => c.getD i 0

/-- Squared euclidean distance between two points. -/
def sqDist (x y : List ℚ) : ℚ := (List.zipWith (fun a b => (a - b) ^ 2) x y).sum

/-- Index tracking helper for `nearestIdx`: scan the remaining centroids
with the running index, best distance and best index. -/
def argminAux (x : List ℚ) : List (List ℚ) → ℕ → ℚ → ℕ → ℕ
  | [], _, _, best => best
  | c :: rest, i, bd, best =>
    if sqDist x c < bd then argminAux x rest (i + 1) (sqDist x c) i
    else argminAux x rest (i + 1) bd best

/-- The index of the nearest centroid (ties to the earliest), i.e. the label
`KMeans.predict` assigns to the point. -/
def nearestIdx (cs : List (List ℚ)) (x : List ℚ) : ℕ :=
  match cs with
  | [] => 0
  | c :: rest => argminAux x rest 1 (sqDist x c) 0

/-- Component-wise mean of a cluster's member points. -/
def meanPoint (dim : ℕ) (pts : List (List ℚ)) : List ℚ :=
  (List.range dim).map fun j => meanL (pts.map fun p => p.getD j 0)

/-- One Lloyd iteration: each centroid becomes the mean of the points
assigned to it (kept unchanged when its cluster is empty). -/
def lloydStep (pts : List (List ℚ)) (cs : List (List ℚ)) : List (List ℚ) :=
  (List.range cs.length).map fun j =>
    let members := pts.filter fun p => nearestIdx cs p = j
    if members.isEmpty then cs.getD j [] else meanPoint (cs.getD j []).length members

/-- `n` Lloyd iterations. -/
def lloydIter (pts : List (List ℚ)) : ℕ → List (List ℚ) → List (List ℚ)
  | 0, cs => cs
  | n + 1, cs => lloydIter pts n (lloydStep pts cs)

/-- A fitted clustering model: its centroids. -/
structure KMeansModel where
  centroids : List (List ℚ)

/-- Models the external library call
`KMeans(n_clusters=k, init="k-means++", n_init=10, random_state=seed).fit(pts)`,
a black box per the spec: with a fixed seed the library is a deterministic
function of `(k, pts)`; the seeded k-means++ initialisation is modelled by
the deterministic choice of the first `k` points, followed by the default
300 Lloyd iterations. The library itself validates `1 ≤ k ≤ n_samples` and
raises `ValueError` otherwise. -/
def kmeansFit (_seed : ℕ) (k : ℕ) (pts : List (List ℚ)) : Except PyError KMeansModel :=
  if k < 1 ∨ pts.length < k then .error .libValueError
  else .ok ⟨lloydIter pts 300 (pts.take k)⟩

/-- `KMeans.predict`: the nearest-centroid label of every sample. -/
def predict (m : KMeansModel) (pts : List (List ℚ)) : List ℕ :=
  pts.map (nearestIdx m.centroids)

/-- `KMeans.inertia_`: within-cluster sum of squared distances. -/
def inertia (m : KMeansModel) (pts : List (List ℚ)) : ℚ :=
  (pts.map fun p => sqDist p (m.centroids.getD (nearestIdx m.centroids p) [])).sum

/-- `ClusterAnalyzer.get_clusters`: fit a fresh seeded model with the given
cluster count (no validation of its own) and predict. -/
def get_clusters (ca : ClusterAnalyzer) (best_n_clusters : ℕ) :
    Except PyError (List ℕ) :=
  match kmeansFit 42 best_n_clusters (rowsOf ca) with
  | .error e => .error e
  | .ok m => .ok (predict m (rowsOf ca))

/-- The argument of `find_optimal_clusters`: the `...` default sentinel, a
non-`range` collection (e.g. a Python list), or a `range(start, stop)`. -/
inductive RangeArg
  | ellipsis
  | pyList (l : List ℕ)
  | rangeObj (start stop : ℕ)

/-- Python's `range(a, b)` as a list. -/
def rangeList (a b : ℕ) : List ℕ := List.range' a (b - a)

/-- The candidate list `find_optimal_clusters` actually iterates: any
argument that is not a `range` object — the sentinel, but also a
caller-supplied list — is replaced by `range(1, data.shape[1] + 1)`. -/
def effectiveRange (ca : ClusterAnalyzer) : RangeArg → List ℕ
  | .rangeObj a b => rangeList a b
  | _ => rangeList 1 (nColsCA ca + 1)

/-- The `wcss` accumulation loop of `find_optimal_clusters`: one seeded fit
per candidate, in order; the first library error aborts the loop. -/
def wcssLoop (pts : List (List ℚ)) : List ℕ → Except PyError (List ℚ)
  | [] => .ok []
  | k :: rest =>
    match kmeansFit 42 k pts with
    | .error e => .error e
    | .ok m =>
      match wcssLoop pts rest with
      | .error e => .error e
      | .ok ws => .ok (inertia m pts :: ws)

/-- `ClusterAnalyzer.find_optimal_clusters`. -/
def find_optimal_clusters (ca : ClusterAnalyzer) (cluster_range : RangeArg) :
    Except PyError (List ℚ) :=
  wcssLoop (rowsOf ca) (effectiveRange ca cluster_range)

/-- `get_clusters` as a state-passing call: the result paired with the
instance state after the call (the method never assigns to `self`). -/
def get_clustersS (ca : ClusterAnalyzer) (k : ℕ) :
    Except PyError (List ℕ × ClusterAnalyzer) :=
  match get_clusters ca k with
  | .error e => .error e
  | .ok ls => .ok (ls, ca)

/-- `find_optimal_clusters` as a state-passing call. -/
def find_optimal_clustersS (ca : ClusterAnalyzer) (arg : RangeArg) :
    Except PyError (List ℚ × ClusterAnalyzer) :=
  match find_optimal_clusters ca arg with
  | .error e => .error e
  | .ok ws => .ok (ws, ca)

lemma applyScaler_length (st : ScalerType) (l : List ℚ) :
    (applyScaler st l).length = l.length := by
  cases st <;> simp [applyScaler, standardScale, robustScale, minMaxScale]

/-- Scaling preserves the row count: a successfully constructed analyzer has
as many rows as the input dataframe. -/
lemma nRowsCA_mk (df : PDataFrame) (st : ScalerType) (ca : ClusterAnalyzer)
    (h : mkClusterAnalyzer df st = .ok ca) : nRowsCA ca = dfRows df := by
  unfold mkClusterAnalyzer at h
  cases hv : validate_df df with
  | error e => rw [hv] at h; cases h
  | ok u =>
    rw [hv] at h
    injection h with h
    subst h
    cases df with
    | nil => rfl
    | cons c rest =>
      show nRowsCA ⟨scale_df st (c :: rest)⟩ = c.cells.length
      simp [scale_df, nRowsCA, applyScaler_length]

lemma rowsOf_length (ca : ClusterAnalyzer) : (rowsOf ca).length = nRowsCA ca := by
  simp [rowsOf]

lemma lloydStep_length (pts cs : List (List ℚ)) :
    (lloydStep pts cs).length = cs.length := by
  simp [lloydStep]

lemma lloydIter_length (pts : List (List ℚ)) (n : ℕ) (cs : List (List ℚ)) :
    (lloydIter pts n cs).length = cs.length := by
  induction n generalizing cs with
  | zero => rfl
  | succ n ih => rw [lloydIter, ih, lloydStep_length]

lemma argminAux_lt (x : List ℚ) (rest : List (List ℚ)) (i : ℕ) (bd : ℚ) (best N : ℕ)
    (hb : best < N) (hi : i + rest.length ≤ N) : argminAux x rest i bd best < N := by
  induction rest generalizing i bd best with
  | nil => simpa [argminAux] using hb
  | cons c cs ih =>
    simp only [List.length_cons] at hi
    simp only [argminAux]
    split
    · exact ih (i + 1) _ i (by omega) (by omega)
    · exact ih (i + 1) bd best hb (by omega)

/-- A predicted label is always a valid centroid index. -/
lemma nearestIdx_lt (cs : List (List ℚ)) (x : List ℚ) (h : cs ≠ []) :
    nearestIdx cs x < cs.length := by
  match cs with
  | c :: rest =>
    simp only [nearestIdx, List.length_cons]
    exact argminAux_lt x rest 1 _ 0 (rest.length + 1) (by omega) (by omega)

lemma sqDist_nonneg (x y : List ℚ) : 0 ≤ sqDist x y := by
  induction x generalizing y with
  | nil => simp [sqDist]
  | cons a as ih =>
    cases y with
    | nil => simp [sqDist]
    | cons b bs =>
      have h2 := ih bs
      simp only [sqDist, List.zipWith_cons_cons, List.sum_cons]
      simp only [sqDist] at h2
      have h1 : (0 : ℚ) ≤ (a - b) ^ 2 := sq_nonneg _
      linarith

lemma inertia_nonneg (m : KMeansModel) (pts : List (List ℚ)) :
    0 ≤ inertia m pts := by
  apply List.sum_nonneg
  intro q hq
  simp only [List.mem_map] at hq
  obtain ⟨p, _, rfl⟩ := hq
  exact sqDist_nonneg _ _

lemma kmeansFit_ok (k : ℕ) (pts : List (List ℚ)) (h1 : 1 ≤ k) (h2 : k ≤ pts.length) :
    kmeansFit 42 k pts = .ok ⟨lloydIter pts 300 (pts.take k)⟩ := by
  unfold kmeansFit
  rw [if_neg (by omega)]

/-- The scan loop on all-valid candidates: one inertia per candidate, in
candidate order. -/
lemma wcssLoop_ok (pts : List (List ℚ)) (ks : List ℕ)
    (h : ∀ k ∈ ks, 1 ≤ k ∧ k ≤ pts.length) :
    wcssLoop pts ks =
      .ok (ks.map fun k => inertia ⟨lloydIter pts 300 (pts.take k)⟩ pts) := by
  induction ks with
  | nil => rfl
  | cons k rest ih =>
    have hk := h k (List.mem_cons_self _ _)
    rw [List.map_cons]
    simp only [wcssLoop, kmeansFit_ok k pts hk.1 hk.2,
      ih fun j hj => h j (List.mem_cons_of_mem _ hj)]

/-- The example input dataframe: one numeric, null-free column of 3 rows. -/
def dfEx : PDataFrame := [⟨"a", .numeric, [some 1, some 2, some 3]⟩]

/-- The analyzer constructed from `dfEx` with the default scaler. -/
def caEx : ClusterAnalyzer := ⟨scale_df .standardScaler dfEx⟩

/-- Every label `predict` assigns is below the number of centroids. -/
lemma predict_lt (cs : List (List ℚ)) (pts : List (List ℚ)) (k : ℕ)
    (hc : cs.length = k) (h1 : 1 ≤ k) :
    ∀ l ∈ predict ⟨cs⟩ pts, l < k := by
  intro l hl
  unfold predict at hl
  rw [List.mem_map] at hl
  obtain ⟨p, _, rfl⟩ := hl
  have hne : cs ≠ [] := by
    intro hcon
    subst hcon
    simp at hc
    omega
  exact lt_of_lt_of_le (nearestIdx_lt cs p hne) (le_of_eq hc)

/-- C5: for a successfully constructed analyzer over a dataset with `r` rows
and any `k` with `1 ≤ k ≤ r`, `get_clusters` succeeds with a vector of
exactly `r` labels, each in `[0, k)`. -/
theorem get_clusters_length_and_range (df : PDataFrame) (st : ScalerType)
    (ca : ClusterAnalyzer) (hmk : mkClusterAnalyzer df st = .ok ca)
    (k : ℕ) (h1 : 1 ≤ k) (h2 : k ≤ dfRows df) :
    ∃ ls, get_clusters ca k = .ok ls ∧ ls.length = dfRows df ∧ ∀ l ∈ ls, l < k := by
  have hrows : nRowsCA ca = dfRows df := nRowsCA_mk df st ca hmk
  have hlen : (rowsOf ca).length = dfRows df := by rw [rowsOf_length, hrows]
  have hfit := kmeansFit_ok k (rowsOf ca) h1 (by omega)
  refine ⟨predict ⟨lloydIter (rowsOf ca) 300 ((rowsOf ca).take k)⟩ (rowsOf ca),
    ?_, ?_, ?_⟩
  · simp [get_clusters, hfit]
  · simp [predict, hlen]
  · have hc : (lloydIter (rowsOf ca) 300 ((rowsOf ca).take k)).length = k := by
      rw [lloydIter_length, List.length_take, min_eq_left (by omega)]
    exact predict_lt (lloydIter (rowsOf ca) 300 ((rowsOf ca).take k)) (rowsOf ca) k hc h1

/-- C5 witness: the theorem applied at `dfEx` (3 rows) and `k = 2`. -/
theorem get_clusters_length_and_range_witness :
    ∃ ls, get_clusters caEx 2 = .ok ls ∧ ls.length = dfRows dfEx ∧ ∀ l ∈ ls, l < 2 :=
  get_clusters_length_and_range dfEx .standardScaler caEx rfl 2 (by decide) (by decide)

/-- C1 counterexample: on a concrete analyzer, an out-of-range `k = 0` makes
`get_clusters` fail with the clustering library's `ValueError`, not with the
`ValidationError("InvalidClusterCount")` the claim requires (no such error
exists anywhere in the repository's error module). -/
theorem get_clusters_invalid_k_library_error :
    get_clusters caEx 0 = .error .libValueError ∧
    PyError.libValueError ≠ PyError.invalidClusterCount := by
  exact ⟨rfl, by decide⟩

/-- C1 amended: `get_clusters` performs no cluster-count validation of its
own: for `k < 1` or `k >` row count it fails with the library's `ValueError`
(never the spec's `ValidationError("InvalidClusterCount")`, which the code
neither defines nor raises), and for `1 ≤ k ≤` row count it succeeds; any
error it ever returns is the library error. -/
theorem get_clusters_k_validation_amended (ca : ClusterAnalyzer) (k : ℕ) :
    (k < 1 ∨ nRowsCA ca < k → get_clusters ca k = .error .libValueError) ∧
    (1 ≤ k → k ≤ nRowsCA ca → ∃ ls, get_clusters ca k = .ok ls) ∧
    (∀ e, get_clusters ca k = .error e → e = .libValueError) := by
  refine ⟨?_, ?_, ?_⟩
  · intro h
    have hfit : kmeansFit 42 k (rowsOf ca) = .error .libValueError := by
      unfold kmeansFit
      rw [if_pos (show k < 1 ∨ (rowsOf ca).length < k by rw [rowsOf_length]; exact h)]
    simp [get_clusters, hfit]
  · intro h1 h2
    have hfit := kmeansFit_ok k (rowsOf ca) h1 (by rw [rowsOf_length]; exact h2)
    exact ⟨predict ⟨lloydIter (rowsOf ca) 300 ((rowsOf ca).take k)⟩ (rowsOf ca),
      by simp [get_clusters, hfit]⟩
  · intro e he
    by_cases hcond : k < 1 ∨ (rowsOf ca).length < k
    · have hfit : kmeansFit 42 k (rowsOf ca) = .error .libValueError := by
        unfold kmeansFit
        rw [if_pos hcond]
      rw [show get_clusters ca k = .error .libValueError by simp [get_clusters, hfit]]
        at he
      injection he with h
      exact h.symm
    · push_neg at hcond
      have hfit := kmeansFit_ok k (rowsOf ca) (by omega) (by omega)
      have hok : get_clusters ca k =
          .ok (predict ⟨lloydIter (rowsOf ca) 300 ((rowsOf ca).take k)⟩ (rowsOf ca)) := by
        simp [get_clusters, hfit]
      rw [hok] at he
      cases he

/-- C1 amended witness: the theorem applied at `caEx` with `k = 0` (failure
branch) and `k = 2` (success branch). -/
theorem get_clusters_k_validation_amended_witness :
    get_clusters caEx 0 = .error .libValueError ∧ ∃ ls, get_clusters caEx 2 = .ok ls :=
  ⟨(get_clusters_k_validation_amended caEx 0).1 (Or.inl (by decide)),
   (get_clusters_k_validation_amended caEx 2).2.1 (by decide) (by decide)⟩

lemma isnullTotal_eq_zero (df : PDataFrame) :
    isnullTotal df = 0 ↔ ∀ c ∈ df, none ∉ c.cells := by
  unfold isnullTotal
  rw [List.sum_eq_zero_iff]
  constructor
  · intro h c hc hn
    have h0 := h (c.cells.countP (·.isNone)) (List.mem_map_of_mem _ hc)
    rw [List.countP_eq_zero] at h0
    exact (h0 none hn) rfl
  · intro h n hn
    rw [List.mem_map] at hn
    obtain ⟨c, hc, rfl⟩ := hn
    rw [List.countP_eq_zero]
    intro x hx hb
    have : x = none := by
      cases x
      · rfl
      · simp at hb
    subst this
    exact absurd hx (h c hc)

lemma notEncodedCols_eq_nil (df : PDataFrame) :
    notEncodedCols df = [] ↔ ∀ c ∈ df, c.dtype ≠ .object ∧ c.dtype ≠ .category := by
  unfold notEncodedCols
  rw [List.map_eq_nil_iff, List.filter_eq_nil_iff]
  constructor
  · intro h c hc
    have := h c hc
    simp only [decide_eq_true_eq] at this
    tauto
  · intro h c hc
    simp only [decide_eq_true_eq]
    have := h c hc
    tauto

lemma mem_notEncodedCols (df : PDataFrame) (c : PColumn) (hc : c ∈ df)
    (h : c.dtype = .object ∨ c.dtype = .category) : c.name ∈ notEncodedCols df := by
  unfold notEncodedCols
  exact List.mem_map_of_mem _ (List.mem_filter.2 ⟨hc, by simpa using h⟩)

/-- C4: construction fails with the null-values error as soon as any cell is
null; on a null-free frame with a non-numeric (object/categorical) column it
fails with the unencoded-columns error, which carries the offending column
names (every offending column is named); on a null-free, fully numeric frame
construction succeeds (with the scaled data as state). -/
theorem mkClusterAnalyzer_validation (df : PDataFrame) (st : ScalerType) :
    ((∃ c ∈ df, none ∈ c.cells) →
      mkClusterAnalyzer df st =
        .error (.nullInDataFrame "Passed dataframe must be imputed.")) ∧
    ((∀ c ∈ df, none ∉ c.cells) →
      (∃ c ∈ df, c.dtype = .object ∨ c.dtype = .category) →
      mkClusterAnalyzer df st = .error (.dfNotEncoded (notEncodedCols df)) ∧
        ∀ c ∈ df, (c.dtype = .object ∨ c.dtype = .category) →
          c.name ∈ notEncodedCols df) ∧
    ((∀ c ∈ df, none ∉ c.cells) →
      (∀ c ∈ df, c.dtype ≠ .object ∧ c.dtype ≠ .category) →
      mkClusterAnalyzer df st = .ok ⟨scale_df st df⟩) := by
  refine ⟨?_, ?_, ?_⟩
  · intro h
    have hnull : 0 < isnullTotal df := by
      rcases Nat.eq_zero_or_pos (isnullTotal df) with h0 | h0
      · obtain ⟨c, hc, hn⟩ := h
        exact absurd hn ((isnullTotal_eq_zero df).1 h0 c hc)
      · exact h0
    unfold mkClusterAnalyzer validate_df
    rw [if_pos hnull]
  · intro hno hbad
    have hz : isnullTotal df = 0 := (isnullTotal_eq_zero df).2 hno
    have hne : notEncodedCols df ≠ [] := by
      intro hnil
      obtain ⟨c, hc, hd⟩ := hbad
      have := (notEncodedCols_eq_nil df).1 hnil c hc
      tauto
    refine ⟨?_, fun c hc h => mem_notEncodedCols df c hc h⟩
    unfold mkClusterAnalyzer validate_df
    rw [if_neg (by omega), if_pos (by
      cases hcase : notEncodedCols df
      · exact absurd hcase hne
      · simp)]
  · intro hno hok
    have hz : isnullTotal df = 0 := (isnullTotal_eq_zero df).2 hno
    have hnil : notEncodedCols df = [] := (notEncodedCols_eq_nil df).2 hok
    unfold mkClusterAnalyzer validate_df
    rw [if_neg (by omega), if_neg (by rw [hnil]; simp)]

/-- C4 witness: the theorem applied to a frame with a null (fails with the
null error), a frame with an object column (fails with the unencoded error
naming it), and a clean numeric frame (succeeds). -/
theorem mkClusterAnalyzer_validation_witness :
    mkClusterAnalyzer [⟨"a", .numeric, [some 1, none]⟩] .standardScaler =
        .error (.nullInDataFrame "Passed dataframe must be imputed.") ∧
    mkClusterAnalyzer [⟨"b", .object, [some 1]⟩] .standardScaler =
        .error (.dfNotEncoded (notEncodedCols [⟨"b", .object, [some 1]⟩])) ∧
    mkClusterAnalyzer dfEx .standardScaler = .ok ⟨scale_df .standardScaler dfEx⟩ :=
  ⟨(mkClusterAnalyzer_validation [⟨"a", .numeric, [some 1, none]⟩] .standardScaler).1
      (by decide),
   ((mkClusterAnalyzer_validation [⟨"b", .object, [some 1]⟩] .standardScaler).2.1
      (by decide) (by decide)).1,
   (mkClusterAnalyzer_validation dfEx .standardScaler).2.2 (by decide) (by decide)⟩

/-- C6: for a supplied candidate range whose members are all valid cluster
counts, the scan returns exactly one inertia value per candidate, each
non-negative, in an order matching the candidate order (the i-th value is
the inertia of the fit for the i-th candidate); and a non-supplied candidate
set means the default `range(1, number_of_columns + 1)`. -/
theorem find_optimal_clusters_inertia (ca : ClusterAnalyzer) (a b : ℕ)
    (hvalid : ∀ k ∈ rangeList a b, 1 ≤ k ∧ k ≤ nRowsCA ca) :
    (∃ ws, find_optimal_clusters ca (.rangeObj a b) = .ok ws ∧
      ws.length = (rangeList a b).length ∧
      (∀ w ∈ ws, 0 ≤ w) ∧
      ws = (rangeList a b).map fun k =>
        inertia ⟨lloydIter (rowsOf ca) 300 ((rowsOf ca).take k)⟩ (rowsOf ca)) ∧
    effectiveRange ca .ellipsis = rangeList 1 (nColsCA ca + 1) := by
  have h' : ∀ k ∈ rangeList a b, 1 ≤ k ∧ k ≤ (rowsOf ca).length := by
    intro k hk
    rw [rowsOf_length]
    exact hvalid k hk
  refine ⟨⟨_, wcssLoop_ok (rowsOf ca) (rangeList a b) h', ?_, ?_, rfl⟩, rfl⟩
  · simp
  · intro w hw
    simp only [List.mem_map] at hw
    obtain ⟨k, _, rfl⟩ := hw
    exact inertia_nonneg _ _

/-- C6 witness: the theorem applied at `caEx` with the candidate range
`range(1, 3)` (both candidates valid on 3 rows). -/
theorem find_optimal_clusters_inertia_witness :
    (∃ ws, find_optimal_clusters caEx (.rangeObj 1 3) = .ok ws ∧
      ws.length = (rangeList 1 3).length ∧
      (∀ w ∈ ws, 0 ≤ w) ∧
      ws = (rangeList 1 3).map fun k =>
        inertia ⟨lloydIter (rowsOf caEx) 300 ((rowsOf caEx).take k)⟩ (rowsOf caEx)) ∧
    effectiveRange caEx .ellipsis = rangeList 1 (nColsCA caEx + 1) :=
  find_optimal_clusters_inertia caEx 1 3 (by decide)

/-- C7: both operations are deterministic two-run properties. Threading the
instance state through a first call, the state comes back unchanged (the
methods fit fresh seeded models and never assign to `self`), and a second
call with the same argument on that state returns the identical result —
for `get_clusters` with the same `k` and for `find_optimal_clusters` with
the same candidate set. -/
theorem clustering_calls_deterministic (ca : ClusterAnalyzer) (k : ℕ) (arg : RangeArg) :
    (match get_clustersS ca k with
     | .ok (r, ca') => ca' = ca ∧ get_clustersS ca' k = .ok (r, ca')
     | .error _ => True) ∧
    (match find_optimal_clustersS ca arg with
     | .ok (w, ca') => ca' = ca ∧ find_optimal_clustersS ca' arg = .ok (w, ca')
     | .error _ => True) := by
  constructor
  · unfold get_clustersS
    cases hg : get_clusters ca k with
    | error e => exact trivial
    | ok ls => exact ⟨rfl, by rw [hg]⟩
  · unfold find_optimal_clustersS
    cases hg : find_optimal_clusters ca arg with
    | error e => exact trivial
    | ok ws => exact ⟨rfl, by rw [hg]⟩

/-- C10: any non-`range` argument to `find_optimal_clusters` — the `...`
default sentinel but equally a caller-supplied list such as `[1, 2, 3]` — is
silently replaced by the default candidate set `range(1, shape[1] + 1)`, so
the supplied collection is ignored and the call behaves exactly like the
default call; no error is raised by the argument handling itself. -/
theorem find_optimal_clusters_ignores_non_range (ca : ClusterAnalyzer) (l : List ℕ) :
    effectiveRange ca (.pyList l) = rangeList 1 (nColsCA ca + 1) ∧
    effectiveRange ca .ellipsis = rangeList 1 (nColsCA ca + 1) ∧
    find_optimal_clusters ca (.pyList l) = find_optimal_clusters ca .ellipsis :=
  ⟨rfl, rfl, rfl⟩

/-- C2 amended witness: the theorem applied at the concrete series
`[1,2,3,4,5]`, `[2,4,6,8,10]` with the reciprocal flag set: the column names
are as stated and the first per-side column (a member of the table) carries
the sixteen `describeLabels` rows. -/
theorem compare_describe_full_columns_witness :
    (compare_describe exA exB true).map Prod.fst =
      [exA.name ++ " as data1", exB.name ++ " as data2", "data1 - data2",
        "data1 ÷ data2"] ++ (if true then ["data2 ÷ data1"] else []) ∧
    (exA.name ++ " as data1", describeLabels.zip (describeColumn exA.cells)) ∈
        compare_describe exA exB true ∧
    (describeLabels.zip (describeColumn exA.cells)).map Prod.fst = describeLabels := by
  refine ⟨(compare_describe_full_columns exA exB true).1, ?_, ?_⟩
  · show _ ∈ compare_describe exA exB true
    simp [compare_describe]
  · exact (compare_describe_full_columns exA exB true).2
      (exA.name ++ " as data1", describeLabels.zip (describeColumn exA.cells))
      (by simp [compare_describe])

/-- C9 witness: the theorem applied at the one-column frame `[1,2,3,4,5]`:
its output column is a member of the table and carries the fixed sixteen-row
label sequence. -/
theorem custom_describe_fixed_rows_and_values_witness :
    (exA.name, describeLabels.zip (describeColumn exA.cells)) ∈ custom_describe [exA] ∧
    (describeLabels.zip (describeColumn exA.cells)).map Prod.fst = describeLabels := by
  refine ⟨?_, ?_⟩
  · show _ ∈ custom_describe [exA]
    simp [custom_describe]
  · exact (custom_describe_fixed_rows_and_values [exA]).2.1
      (exA.name, describeLabels.zip (describeColumn exA.cells))
      (by simp [custom_describe])

end EasyAnalysis
